import Mathlib

/-!
Verification development for the scriptlyze backend.

Shallow embedding of the repository's decision core:
* `ViralPatternDetector` (src/app/core/analyzer.py): the six fixed regex
  matchers and `detect_patterns`;
* `ScriptAnalyzer._estimate_duration` and word counting
  (src/app/core/analyzer.py);
* the `/analyze` endpoint orchestration (src/app/api/v1/analyze.py):
  rate-limit gate, external call, counter updates;
* the plan-limit lookup of `get_stats` (src/app/api/v1/analyze.py);
* the quota / feature-gating policy of `app/core/security.py`, which is
  not present in the source tree and is therefore modelled from the spec.

Machine reals (Python floats) are modelled by exact arithmetic over
`Nat`/`Rat`; regular-expression search is embedded as an explicit
existence-of-match scan equivalent to `re.search` on the six concrete
patterns of the source.
-/

/-- The apostrophe character, used inside several pattern literals. -/
def apos : Char := Char.ofNat 39

/-- Characters `str.split()` (no argument) treats as separators:
space, tab, newline, carriage return, vertical tab, form feed. -/
def isPySpace (c : Char) : Bool :=
  c = ' ' || c = Char.ofNat 9 || c = Char.ofNat 10 || c = Char.ofNat 13 ||
  c = Char.ofNat 11 || c = Char.ofNat 12

/-- Accumulator version of Python `str.split()` with no separator:
splits on runs of whitespace, discarding empty tokens. -/
def pySplitAux : List Char → List Char → List (List Char)
  | [], acc => if acc.isEmpty then [] else [acc.reverse]
  | c :: rest, acc =>
    if isPySpace c then
      if acc.isEmpty then pySplitAux rest [] else acc.reverse :: pySplitAux rest []
    else pySplitAux rest (c :: acc)

/-- Python `script.split()`. -/
def pySplit (l : List Char) : List (List Char) := pySplitAux l []

/-- `len(script.split())` of src/app/core/analyzer.py. -/
def wordCount (s : String) : Nat := (pySplit s.data).length

/-- Lowercased character list of a script; embeds the `(?i)` flag carried
by every pattern of `VIRAL_PATTERNS`. -/
def lowerChars (s : String) : List Char := s.data.map Char.toLower

/-- `chars` abbreviates the character list of a literal. -/
def chars (s : String) : List Char := s.data

/-- Try each alternative literal as a prefix of the text and continue with
`next` on the remainder; embeds a regex alternation of literals followed
by the rest of the pattern, under `re.search` existence semantics. -/
def altThen (alts : List (List Char)) (next : List Char → Bool) (t : List Char) : Bool :=
  alts.any fun a => a.isPrefixOf t && next (t.drop a.length)

/-- `gapThen next lo hi t`: embeds `.{lo,hi}` followed by the rest of the
pattern: some `k` with `lo ≤ k ≤ hi` non-newline characters are consumed
and `next` holds on what remains. -/
def gapThen (next : List Char → Bool) : Nat → Nat → List Char → Bool
  | 0, 0, t => next t
  | 0, hi + 1, t =>
    next t ||
      (match t with
       | [] => false
       | c :: r => !(c = Char.ofNat 10) && gapThen next 0 hi r)
  | _ + 1, 0, _ => false
  | lo + 1, hi + 1, t =>
    match t with
    | [] => false
    | c :: r => !(c = Char.ofNat 10) && gapThen next lo hi r

/-- A match attempt anchored at every suffix; embeds `re.search`. -/
def searchAny (p : List Char → Bool) (s : List Char) : Bool := s.tails.any p

/-- Matcher of `problem_agitate_solution`:
`(?i)(problem|issue|struggle).{50,500}(worse|imagine|what if).{50,500}(solution|answer|fix)`. -/
def matchPAS (s : List Char) : Bool :=
  searchAny
    (altThen [chars "problem", chars "issue", chars "struggle"]
      (gapThen
        (altThen [chars "worse", chars "imagine", chars "what if"]
          (gapThen
            (altThen [chars "solution", chars "answer", chars "fix"] fun _ => true)
            50 500))
        50 500)) s

/-- The literal `you won't believe`, built around the apostrophe. -/
def wontBelieveLit : List Char := chars "you won" ++ [apos] ++ chars "t believe"

/-- Matcher of `curiosity_gap`:
`(?i)(you won't believe|secret|hidden|nobody tells you|shocking)`. -/
def matchCuriosity (s : List Char) : Bool :=
  searchAny
    (altThen [wontBelieveLit, chars "secret", chars "hidden",
              chars "nobody tells you", chars "shocking"] fun _ => true) s

/-- A space followed by one of the audience nouns of `social_proof`. -/
def spaceAudience (t : List Char) : Bool :=
  altThen [chars " people", chars " viewers", chars " subscribers", chars " users"]
    (fun _ => true) t

/-- After at least one digit: more digits, an optional `k`/`m`
(the text is lowercased), then a space and an audience noun. -/
def socialAfterDigit : List Char → Bool
  | [] => false
  | c :: r =>
    if c.isDigit then socialAfterDigit r
    else if c = 'k' || c = 'm' then spaceAudience r
    else spaceAudience (c :: r)

/-- Matcher of `social_proof`:
`(?i)(\d+[kKmM]? (people|viewers|subscribers|users))`. -/
def matchSocial (s : List Char) : Bool :=
  searchAny
    (fun t =>
      match t with
      | [] => false
      | c :: r => c.isDigit && socialAfterDigit r) s

/-- Matcher of `transformation`:
`(?i)(from .{5,30} to .{5,30}|before .{5,30} after|went from)`. -/
def matchTransformation (s : List Char) : Bool :=
  searchAny
    (fun t =>
      altThen [chars "from "]
        (gapThen (altThen [chars " to "] (gapThen (fun _ => true) 5 30)) 5 30) t ||
      altThen [chars "before "]
        (gapThen (altThen [chars " after"] fun _ => true) 5 30) t ||
      List.isPrefixOf (chars "went from") t) s

/-- Matcher of `contrarian`:
`(?i)(stop|don't|never|why you shouldn't|the truth about|myth)`. -/
def matchContrarian (s : List Char) : Bool :=
  searchAny
    (altThen [chars "stop", chars "don" ++ [apos] ++ chars "t", chars "never",
              chars "why you shouldn" ++ [apos] ++ chars "t",
              chars "the truth about", chars "myth"] fun _ => true) s

/-- Matcher of `personal_story`:
`(?i)(I|my|me).{20,200}(realized|learned|discovered|failed)`. -/
def matchPersonalStory (s : List Char) : Bool :=
  searchAny
    (altThen [chars "i", chars "my", chars "me"]
      (gapThen
        (altThen [chars "realized", chars "learned", chars "discovered", chars "failed"]
          fun _ => true)
        20 200)) s

/-- `ViralPatternDetector.VIRAL_PATTERNS` of src/app/core/analyzer.py:
the six named patterns in dictionary (insertion) order, each paired with
the embedding of its regex. -/
def VIRAL_PATTERNS : List (String × (List Char → Bool)) :=
  [("problem_agitate_solution", matchPAS),
   ("curiosity_gap", matchCuriosity),
   ("social_proof", matchSocial),
   ("transformation", matchTransformation),
   ("contrarian", matchContrarian),
   ("personal_story", matchPersonalStory)]

/-- One step of Python `str.title()`: an alphabetic character is
uppercased when the previous character was not alphabetic, lowercased
otherwise. -/
def pyTitleAux : Bool → List Char → List Char
  | _, [] => []
  | prevAlpha, c :: rest =>
    (if c.isAlpha then (if prevAlpha then c.toLower else c.toUpper) else c) ::
      pyTitleAux c.isAlpha rest

/-- Python `str.title()`. -/
def pyTitle (l : List Char) : List Char := pyTitleAux false l

/-- `pattern_name.replace("_", " ").title()` of `detect_patterns`. -/
def displayName (key : String) : String :=
  ⟨pyTitle (key.data.map fun c => if c = '_' then ' ' else c)⟩

/-- `ViralPatternDetector.detect_patterns` of src/app/core/analyzer.py:
iterates the pattern library in order, keeps the patterns whose regex
fires on the script, and reports each name underscore-replaced and
title-cased. -/
def detect_patterns (script : String) : List String :=
  (VIRAL_PATTERNS.filter fun p => p.2 (lowerChars script)).map fun p => displayName p.1

/-- The display names of the full pattern library, in library order. -/
def allDisplayNames : List String := VIRAL_PATTERNS.map fun p => displayName p.1

/-- One-decimal formatting `f"\x7bminutes:.1f\x7d"` of `_estimate_duration`,
applied to `minutes = wc / 150`: the number of tenths of a minute
`wc / 15` is rounded to the nearest integer.  The denominator 15 is odd,
so an exact half never arises and round-half-even agrees with this
rounding for every word count. -/
def fmtOneDecimal (wc : Nat) : String :=
  let t := if 2 * (wc % 15) < 15 then wc / 15 else wc / 15 + 1
  toString (t / 10) ++ "." ++ toString (t % 10)

/-- `ScriptAnalyzer._estimate_duration` of src/app/core/analyzer.py:
`minutes = word_count / 150`; under one minute the duration is reported
as whole (truncated) seconds, under ten minutes as minutes with one
decimal, otherwise as whole (truncated) minutes.  Python float
arithmetic is modelled by the exact values (`int` truncation of the
nonnegative exact value is `Nat` division). -/
def estimate_duration (script : String) : String :=
  let wc := wordCount script
  if wc < 150 then toString (wc * 60 / 150) ++ " seconds"
  else if wc < 1500 then fmtOneDecimal wc ++ " minutes"
  else toString (wc / 150) ++ " minutes"

/-- `result["script_length"]` computed in `ScriptAnalyzer.analyze_script`:
"short" under 500 words, "medium" under 1500, otherwise "long". -/
def scriptLength (wc : Nat) : String :=
  if wc < 500 then "short" else if wc < 1500 then "medium" else "long"

/-- The JSON object parsed from the external scoring service's reply,
with the fields the code reads downstream.  `viral_patterns_missing` and
`estimated_retention` are read with `.get` and may be absent. -/
structure LLMJson where
  overall_score : Rat
  virality_prediction : String
  scores : List (String × Rat)
  strengths : List String
  weaknesses : List String
  improvements : List (String × String × String)
  viral_patterns_detected : List String
  viral_patterns_missing : Option (List String)
  estimated_retention : Option String

/-- Outcome of the external scoring call as observed by the orchestrator:
either the call raised (transport error, timeout, unparseable JSON) or it
produced a parsed object. -/
inductive ExtOutcome where
  | failure (msg : String)
  | success (r : LLMJson)

/-- The orchestrator's return value: the parsed external object together
with the locally derived metadata it adds. -/
structure AnalyzerResult where
  llm : LLMJson
  word_count : Nat
  estimated_duration : String
  script_length : String

namespace ScriptAnalyzer

/-- `ScriptAnalyzer.analyze_script` of src/app/core/analyzer.py: a single
call to the external service; any raised error is re-raised as
`Failed to analyze script: ...`; a successfully parsed reply is accepted
as-is (no field or range validation) and augmented with `word_count`,
`estimated_duration` and `script_length`. -/
def analyze_script (script : String) (ext : ExtOutcome) : Except String AnalyzerResult :=
  match ext with
  | .failure msg => .error ("Failed to analyze script: " ++ msg)
  | .success r =>
    .ok { llm := r
          word_count := wordCount script
          estimated_duration := estimate_duration script
          script_length := scriptLength (wordCount script) }

end ScriptAnalyzer

/-- `PlanTier` of the spec: `User.plan` takes the values
"free", "pro", "creator". -/
inductive Tier where
  | free
  | pro
  | creator
deriving DecidableEq

/-- Quota per tier: `RATE_LIMIT_FREE = 3`, `RATE_LIMIT_PRO = 50`,
`RATE_LIMIT_CREATOR = 500` of src/app/core/config.py. -/
def quota_for : Tier → Nat
  | .free => 3
  | .pro => 50
  | .creator => 500

/-- An authorization decision: allowed, or denied with a reason. -/
inductive Decision where
  | allowed
  | denied (reason : String)
deriving DecidableEq

/-- The usage-tracking state of a `User` row
(src/app/models/models.py) read and written by the `/analyze` endpoint. -/
structure UserState where
  plan : Tier
  analyses_this_month : Nat
  total_analyses : Nat
deriving DecidableEq

/-- Modelled from the spec: `UsagePolicy.authorize` of
`app/core/security.py`, which is not present in the source tree (only
its callers are).  Per spec §4.3: Allowed iff
`analyses_this_period < quota_for(tier)`, otherwise Denied with reason
"quota_exceeded". -/
def authorize (analyses_this_period : Nat) (tier : Tier) : Decision :=
  if analyses_this_period < quota_for tier then .allowed
  else .denied "quota_exceeded"

/-- Modelled from the spec: `check_rate_limit` of `app/core/security.py`
(not in the source tree), the boolean gate used by the `/analyze`
endpoint — true exactly when `authorize` allows the user. -/
def check_rate_limit (u : UserState) : Bool :=
  match authorize u.analyses_this_month u.plan with
  | .allowed => true
  | .denied _ => false

/-- Modelled from the spec: the tier rank of §4.2, the explicit order
free < pro ≤ creator used for feature gating. -/
def tierRank : Tier → Nat
  | .free => 0
  | .pro => 1
  | .creator => 2

/-- Modelled from the spec: `UsagePolicy.authorize_feature` of
`app/core/security.py` (not in the source tree).  Per spec §4.3: Allowed
iff the tier's rank is at least the required tier's rank, otherwise
Denied with reason "plan_upgrade_required". -/
def authorize_feature (tier required : Tier) : Decision :=
  if tierRank required ≤ tierRank tier then .allowed
  else .denied "plan_upgrade_required"

/-- Modelled from the spec: `require_plan` of `app/core/security.py`
(not in the source tree), the dependency gating the `/compare` and
`/improve` endpoints — the feature authorization applied to the current
user's tier. -/
def require_plan (required : Tier) (u : UserState) : Decision :=
  authorize_feature u.plan required

/-- The `Analysis` row assembled and stored by the `/analyze` endpoint
(src/app/api/v1/analyze.py, lines 52-68), restricted to the fields the
claims are about. -/
structure AnalysisRecord where
  script_text : String
  script_type : String
  overall_score : Rat
  virality_prediction : String
  viral_patterns_detected : List String
  viral_patterns_missing : List String
  word_count : Nat
  estimated_duration : String
  estimated_retention : Option String
deriving DecidableEq

/-- Result of one `/analyze` request: the HTTP outcome (error status code
or stored row), the user state afterwards, and whether the external
scoring collaborator was invoked. -/
structure EndpointResult where
  response : Except Nat AnalysisRecord
  user : UserState
  externalInvoked : Bool

/-- The `/analyze` endpoint `analyze_script` of src/app/api/v1/analyze.py:
the rate-limit gate runs first and an over-quota user is rejected with
429 before the external call; then the orchestrator runs — on failure
the transaction is rolled back (state unchanged) and 500 returned; on
success the detector's output overwrites `viral_patterns_detected`, the
row is stored, and both usage counters are incremented. -/
def analyze_endpoint (u : UserState) (script script_type : String)
    (ext : ExtOutcome) : EndpointResult :=
  if !check_rate_limit u then
    { response := .error 429, user := u, externalInvoked := false }
  else
    match ScriptAnalyzer.analyze_script script ext with
    | .error _ => { response := .error 500, user := u, externalInvoked := true }
    | .ok res =>
      let detected := detect_patterns script
      let analysis : AnalysisRecord :=
        { script_text := script
          script_type := script_type
          overall_score := res.llm.overall_score
          virality_prediction := res.llm.virality_prediction
          viral_patterns_detected := detected
          viral_patterns_missing := res.llm.viral_patterns_missing.getD []
          word_count := res.word_count
          estimated_duration := res.estimated_duration
          estimated_retention := res.llm.estimated_retention }
      { response := .ok analysis
        user := { u with
                  analyses_this_month := u.analyses_this_month + 1
                  total_analyses := u.total_analyses + 1 }
        externalInvoked := true }

/-- The plan-limit lookup of `get_stats`
(src/app/api/v1/analyze.py, lines 248-249):
`{"free": 3, "pro": 50, "creator": 500}.get(current_user.plan, 3)` —
a total lookup over the raw plan string with default 3. -/
def plan_limits_get (plan : String) : Nat :=
  if plan = "free" then 3
  else if plan = "pro" then 50
  else if plan = "creator" then 500
  else 3

/-- A well-formed external reply used as a concrete probe: in-range
score, empty lists, `viral_patterns_missing` present and empty. -/
def llmStub : LLMJson :=
  { overall_score := 8
    virality_prediction := "High"
    scores := [("hook", 8)]
    strengths := []
    weaknesses := []
    improvements := []
    viral_patterns_detected := []
    viral_patterns_missing := some []
    estimated_retention := none }

/-- An external reply whose scores lie outside the documented `[0,10]`
range, used to probe response validation. -/
def llmOutOfRange : LLMJson :=
  { overall_score := 99
    virality_prediction := "High"
    scores := [("hook", 42)]
    strengths := []
    weaknesses := []
    improvements := []
    viral_patterns_detected := []
    viral_patterns_missing := none
    estimated_retention := none }

/-- The scenario script of the spec's testable properties. -/
def c8script : String :=
  "Did you know that 95% of people quit... I realized I had to change."

/-- A 150-word script. -/
def script150 : String := String.intercalate " " (List.replicate 150 "word")

/-- A 30-word script. -/
def script30 : String := String.intercalate " " (List.replicate 30 "word")

/-- C1: the quota authorization check (`check_rate_limit` / `authorize`)
returns Allowed iff `analyses_this_period < quota_for tier`; at
`quota - 1` it allows, and at `quota` it denies with reason
"quota_exceeded". -/
theorem quota_gate_allowed_iff_under_quota (n tot : Nat) (t : Tier) :
    (authorize n t = Decision.allowed ↔ n < quota_for t) ∧
    (check_rate_limit ⟨t, n, tot⟩ = true ↔ n < quota_for t) ∧
    (n = quota_for t - 1 → authorize n t = Decision.allowed) ∧
    (n = quota_for t → authorize n t = Decision.denied "quota_exceeded") := by
  have hq : 0 < quota_for t := by cases t <;> decide
  refine ⟨?_, ?_, ?_, ?_⟩
  · unfold authorize
    by_cases h : n < quota_for t
    · rw [if_pos h]
      simp [h]
    · rw [if_neg h]
      simp [h]
  · unfold check_rate_limit authorize
    by_cases h : n < quota_for t
    · rw [if_pos h]
      simp [h]
    · rw [if_neg h]
      simp [h]
  · intro h
    subst h
    unfold authorize
    rw [if_pos (Nat.sub_lt hq Nat.one_pos)]
  · intro h
    subst h
    unfold authorize
    rw [if_neg (lt_irrefl _)]

/-- Witness for C1 at the free tier (quota 3): 2 analyses are allowed,
3 are denied with "quota_exceeded". -/
theorem quota_gate_allowed_iff_under_quota_witness :
    authorize 2 Tier.free = Decision.allowed ∧
    authorize 3 Tier.free = Decision.denied "quota_exceeded" :=
  ⟨(quota_gate_allowed_iff_under_quota 2 0 Tier.free).2.2.1 (by decide),
   (quota_gate_allowed_iff_under_quota 3 0 Tier.free).2.2.2 (by decide)⟩

/-- C2: when the external scoring call fails during an `/analyze` request,
the user's usage counters are unchanged afterwards — the increment step
never runs on a failed analysis. -/
theorem failed_external_call_leaves_counters_unchanged
    (u : UserState) (script stype msg : String) :
    (analyze_endpoint u script stype (.failure msg)).user = u ∧
    (analyze_endpoint u script stype (.failure msg)).user.analyses_this_month =
      u.analyses_this_month ∧
    (analyze_endpoint u script stype (.failure msg)).user.total_analyses =
      u.total_analyses := by
  have h : (analyze_endpoint u script stype (.failure msg)).user = u := by
    unfold analyze_endpoint ScriptAnalyzer.analyze_script
    split <;> rfl
  exact ⟨h, by rw [h], by rw [h]⟩

/-- C3: a request from a user whose counter has reached the quota is
rejected with 429 before the external scoring collaborator is invoked:
on the over-quota path the external call is never made and the state is
unchanged. -/
theorem over_quota_denied_before_external_call
    (u : UserState) (script stype : String) (ext : ExtOutcome)
    (h : quota_for u.plan ≤ u.analyses_this_month) :
    (analyze_endpoint u script stype ext).externalInvoked = false ∧
    (analyze_endpoint u script stype ext).response = .error 429 ∧
    (analyze_endpoint u script stype ext).user = u := by
  have hc : check_rate_limit u = false := by
    unfold check_rate_limit authorize
    rw [if_neg (Nat.not_lt.mpr h)]
  unfold analyze_endpoint
  rw [hc]
  exact ⟨rfl, rfl, rfl⟩

/-- Witness for C3: a free-tier user at 3 of 3 analyses is turned away
before the external call. -/
theorem over_quota_denied_before_external_call_witness :
    (analyze_endpoint ⟨Tier.free, 3, 3⟩ "s" "general" (.failure "x")).externalInvoked
        = false ∧
    (analyze_endpoint ⟨Tier.free, 3, 3⟩ "s" "general" (.failure "x")).response
        = .error 429 ∧
    (analyze_endpoint ⟨Tier.free, 3, 3⟩ "s" "general" (.failure "x")).user
        = ⟨Tier.free, 3, 3⟩ :=
  over_quota_denied_before_external_call ⟨Tier.free, 3, 3⟩ "s" "general"
    (.failure "x") (by decide)

/-- C4 counterexample: on the empty script with an external reply whose
`viral_patterns_missing` is empty, the stored detected and missing sets
are both empty while the full pattern name set is not — so
`detected ∪ missing` is not the full pattern name set. -/
theorem detected_missing_not_partition_counterexample :
    (analyze_endpoint ⟨Tier.free, 0, 0⟩ "" "general" (.success llmStub)).response.map
        (fun a => (a.viral_patterns_detected, a.viral_patterns_missing)) =
      .ok ([], []) ∧
    "Curiosity Gap" ∈ allDisplayNames ∧
    "Curiosity Gap" ∉ ([] : List String) := by
  refine ⟨rfl, by decide, by decide⟩

/-- C4 amended: the stored detected set is the detector's output (a
sublist of the full pattern name set), while the stored missing set is
taken verbatim from the external reply (defaulting to empty), not
computed as the complement of the detected set. -/
theorem stored_missing_comes_from_external_response
    (u : UserState) (script stype : String) (r : LLMJson)
    (h : check_rate_limit u = true) :
    (analyze_endpoint u script stype (.success r)).response.map
        (fun a => (a.viral_patterns_detected, a.viral_patterns_missing)) =
      .ok (detect_patterns script, r.viral_patterns_missing.getD []) ∧
    (detect_patterns script).Sublist allDisplayNames := by
  constructor
  · unfold analyze_endpoint ScriptAnalyzer.analyze_script
    rw [h]
    rfl
  · exact (List.filter_sublist _).map _

/-- Witness for the amended C4, on a fresh free-tier user. -/
theorem stored_missing_comes_from_external_response_witness :
    check_rate_limit ⟨Tier.free, 0, 0⟩ = true ∧
    ((analyze_endpoint ⟨Tier.free, 0, 0⟩ "x" "general" (.success llmStub)).response.map
        (fun a => (a.viral_patterns_detected, a.viral_patterns_missing)) =
      .ok (detect_patterns "x", llmStub.viral_patterns_missing.getD []) ∧
    (detect_patterns "x").Sublist allDisplayNames) :=
  ⟨by decide,
   stored_missing_comes_from_external_response ⟨Tier.free, 0, 0⟩ "x" "general"
     llmStub (by decide)⟩

/-- C5 counterexample: the plan-limit lookup of `get_stats` gives the
unknown tier "enterprise" the default quota 3 instead of failing. -/
theorem unknown_tier_gets_default_quota_counterexample :
    plan_limits_get "enterprise" = 3 ∧
    ¬("enterprise" = "free" ∨ "enterprise" = "pro" ∨ "enterprise" = "creator") := by
  refine ⟨rfl, by decide⟩

/-- C5 amended: for every plan string outside free / pro / creator, the
plan-limit lookup silently substitutes the default quota 3 (the free
tier's value); it never fails. -/
theorem unknown_tier_defaults_to_free_quota (p : String)
    (h : ¬(p = "free" ∨ p = "pro" ∨ p = "creator")) :
    plan_limits_get p = 3 := by
  push_neg at h
  simp [plan_limits_get, h.1, h.2.1, h.2.2]

/-- Witness for the amended C5 at the unknown tier "enterprise". -/
theorem unknown_tier_defaults_to_free_quota_witness :
    ¬("enterprise" = "free" ∨ "enterprise" = "pro" ∨ "enterprise" = "creator") ∧
    plan_limits_get "enterprise" = 3 :=
  ⟨by decide, unknown_tier_defaults_to_free_quota "enterprise" (by decide)⟩

/-- C6 counterexample: a parsed external reply whose overall score is 99
(outside `[0,10]`) is accepted by the orchestrator without error, and
the out-of-range score flows into the stored row — no range validation
is performed. -/
theorem out_of_range_scores_accepted_counterexample :
    (ScriptAnalyzer.analyze_script "test script" (.success llmOutOfRange)).isOk
        = true ∧
    ¬(llmOutOfRange.overall_score ≤ 10) ∧
    (analyze_endpoint ⟨Tier.free, 0, 0⟩ "test script" "general"
        (.success llmOutOfRange)).response.map (fun a => a.overall_score) =
      .ok 99 := by
  refine ⟨rfl, by decide, rfl⟩

/-- C6 amended: the orchestrator makes a single attempt — a failed or
unparseable external call is surfaced as the error
`Failed to analyze script: ...` with no retry — but it performs no
structural or range validation of a successfully parsed reply: every
parsed reply, whatever its scores, is accepted and only augmented with
the locally derived metadata. -/
theorem orchestrator_single_attempt_no_validation
    (script msg : String) (r : LLMJson) :
    ScriptAnalyzer.analyze_script script (.failure msg) =
      .error ("Failed to analyze script: " ++ msg) ∧
    ScriptAnalyzer.analyze_script script (.success r) =
      .ok { llm := r
            word_count := wordCount script
            estimated_duration := estimate_duration script
            script_length := scriptLength (wordCount script) } :=
  ⟨rfl, rfl⟩

set_option maxRecDepth 40000 in
/-- C7: word count splits on whitespace and the duration model is 150
words per minute — whole seconds under one minute, one-decimal minutes
under ten minutes, whole minutes otherwise; concretely,
"one two three" has 3 words, a 150-word script reads "1.0 minutes" and a
30-word script reads "12 seconds". -/
theorem word_count_and_duration_model :
    wordCount "one two three" = 3 ∧
    wordCount script150 = 150 ∧ estimate_duration script150 = "1.0 minutes" ∧
    wordCount script30 = 30 ∧ estimate_duration script30 = "12 seconds" ∧
    (∀ s : String, wordCount s < 150 →
      estimate_duration s = toString (wordCount s * 60 / 150) ++ " seconds") ∧
    (∀ s : String, 150 ≤ wordCount s → wordCount s < 1500 →
      estimate_duration s = fmtOneDecimal (wordCount s) ++ " minutes") ∧
    (∀ s : String, 1500 ≤ wordCount s →
      estimate_duration s = toString (wordCount s / 150) ++ " minutes") := by
  refine ⟨by decide, by decide, by decide, by decide, by decide, ?_, ?_, ?_⟩
  · intro s h
    unfold estimate_duration
    rw [if_pos h]
  · intro s h1 h2
    unfold estimate_duration
    rw [if_neg (Nat.not_lt.mpr h1), if_pos h2]
  · intro s h
    unfold estimate_duration
    rw [if_neg (Nat.not_lt.mpr (le_trans (by decide) h)),
        if_neg (Nat.not_lt.mpr h)]

set_option maxRecDepth 40000 in
/-- Witness for C7's branch structure at the 150-word script (the
one-decimal-minutes branch, both bounds discharged). -/
theorem word_count_and_duration_model_witness :
    150 ≤ wordCount script150 ∧ wordCount script150 < 1500 ∧
    estimate_duration script150 = fmtOneDecimal (wordCount script150) ++ " minutes" :=
  ⟨by decide, by decide,
   (word_count_and_duration_model).2.2.2.2.2.2.1 script150 (by decide) (by decide)⟩

/-- C8 counterexample: on the scenario script the social-proof pattern is
NOT detected — its regex requires a number (optionally suffixed k/m)
immediately followed by a space and an audience noun, which
"95% of people" does not satisfy. -/
theorem social_proof_not_detected_counterexample :
    "Social Proof" ∉ detect_patterns c8script := by decide

/-- C8 amended: on the scenario script the detector reports exactly the
personal-story pattern (triggered by "I realized"); the social-proof
pattern does not fire on the percentage figure. -/
theorem c8_script_detects_personal_story_only :
    detect_patterns c8script = ["Personal Story"] := by decide

/-- C9: feature gating follows the explicit tier order
free < pro ≤ creator — a tier satisfies a requirement iff its rank is at
least the required rank; `require_plan` applies this to the current
user, denying free-tier users the pro-gated comparison and improvement
endpoints with reason "plan_upgrade_required". -/
theorem feature_gating_follows_tier_order (t required : Tier) (u : UserState) :
    (authorize_feature t required = Decision.allowed ↔
      tierRank required ≤ tierRank t) ∧
    require_plan required u = authorize_feature u.plan required ∧
    tierRank Tier.free < tierRank Tier.pro ∧
    tierRank Tier.pro ≤ tierRank Tier.creator ∧
    authorize_feature Tier.free Tier.pro = Decision.denied "plan_upgrade_required" ∧
    authorize_feature Tier.pro Tier.pro = Decision.allowed ∧
    authorize_feature Tier.creator Tier.pro = Decision.allowed := by
  refine ⟨?_, rfl, by decide, by decide, by decide, by decide, by decide⟩
  unfold authorize_feature
  split
  · simp_all
  · simp_all

/-- Witness for C9: a creator-tier user passes the pro gate. -/
theorem feature_gating_follows_tier_order_witness :
    authorize_feature Tier.creator Tier.pro = Decision.allowed :=
  (feature_gating_follows_tier_order Tier.creator Tier.pro
    ⟨Tier.free, 0, 0⟩).1.mpr (by decide)

/-- C10: for every script, `detect_patterns` returns a duplicate-free
sublist of the six library names in library order, each reported as the
key with underscores replaced by spaces and title-cased. -/
theorem detect_patterns_duplicate_free_sublist (s : String) :
    (detect_patterns s).Sublist allDisplayNames ∧
    (detect_patterns s).Nodup ∧
    allDisplayNames =
      ["Problem Agitate Solution", "Curiosity Gap", "Social Proof",
       "Transformation", "Contrarian", "Personal Story"] ∧
    displayName "problem_agitate_solution" = "Problem Agitate Solution" := by
  have hsub : (detect_patterns s).Sublist allDisplayNames :=
    (List.filter_sublist _).map _
  have hall : allDisplayNames =
      ["Problem Agitate Solution", "Curiosity Gap", "Social Proof",
       "Transformation", "Contrarian", "Personal Story"] := by decide
  have hnodup : allDisplayNames.Nodup := by rw [hall]; decide
  exact ⟨hsub, hnodup.sublist hsub, hall, by decide⟩
